import Mathlib

/-!
Verification development for the MD-102 daily study email webhook
(`src/main.py`). The Python source is shallowly embedded: pure helpers
become Lean functions over `String` / `List Char`, the Notion HTTP
calls become an oracle (`World`) that supplies the raw response each
call site would have received, and the endpoint's control flow becomes
a pure function from the request, the configuration and that oracle to
the returned JSON value. Strings are treated as sequences of Unicode
scalar values; Python's `\d` and `str.strip()` are modelled at ASCII
precision (`Char.isDigit`, the six ASCII whitespace characters), which
coincides with Python on every identifier and date string the service
handles.
-/

/-! ## Character-level utilities (Python `str` operations) -/

/-- Python whitespace as stripped by `str.strip()` (ASCII part). -/
def isPyWs (c : Char) : Bool :=
  c = ' ' || c = '\t' || c = '\n' || c = '\x0d' || c = '\x0b' || c = '\x0c'

/-- Python `s.strip()` over a character list: drop leading and trailing
whitespace. -/
def stripChars (l : List Char) : List Char :=
  ((l.dropWhile isPyWs).reverse.dropWhile isPyWs).reverse

/-- Python `s.strip()` on a `String`. -/
def pyStrip (s : String) : String :=
  String.mk (stripChars s.data)

/-- Python `raw.split(",")`: split at every comma, keeping empty pieces. -/
def splitComma : List Char → List (List Char)
  | [] => [[]]
  | c :: cs =>
    if c = ',' then [] :: splitComma cs
    else
      match splitComma cs with
      | [] => [[c]]
      | t :: ts => (c :: t) :: ts

/-- Strict lexicographic comparison of character lists by code point:
exactly how Python compares the identifier strings that `sorted` orders. -/
def ltCL : List Char → List Char → Bool
  | [], [] => false
  | [], _ :: _ => true
  | _ :: _, [] => false
  | a :: as, b :: bs =>
    if a.toNat < b.toNat then true
    else if b.toNat < a.toNat then false
    else ltCL as bs

/-- Python `int(s)` on a run of ASCII digits. -/
def charsToNat (l : List Char) : Nat :=
  l.foldl (fun n c => n * 10 + (c.toNat - '0'.toNat)) 0

/-- Python `str(i)` for a natural number, as a character list. -/
def natToChars (i : Nat) : List Char :=
  (Nat.repr i).data

/-- Python `s.zfill(width)` for a digit string: left-pad with zeros. -/
def zfillChars (width : Nat) (s : List Char) : List Char :=
  List.replicate (width - s.length) '0' ++ s

/-- Python `range(start, end+1)` as a list (empty when reversed). -/
def rangeNums (s e : Nat) : List Nat :=
  (List.range (e + 1 - s)).map (· + s)

/-! ## The two range regexes of `parse_id_list`

Pattern A is `^(.+?)(\d+)\.\.(\d+)$`, pattern B is
`^(.+?)(\d+)\.\.(.+?)(\d+)$` (src/main.py lines 150 and 160). Both are
embedded as explicit backtracking matchers with Python `re` semantics:
the non-greedy `(.+?)` tries the shortest prefix first, the greedy
`(\d+)` the longest digit run first (and since the run is followed by a
literal `.`, only the maximal run can match), `.` matches any character
except a newline, and `$` is end-of-input (tokens are stripped, so the
before-final-newline reading of `$` never differs). -/

/-- Longest run of digits at the front, and the remainder. -/
def takeDigits : List Char → List Char × List Char
  | [] => ([], [])
  | c :: cs =>
    if c.isDigit then
      let (d, r) := takeDigits cs
      (c :: d, r)
    else ([], c :: cs)

/-- Every character is a digit. -/
def allDigits (l : List Char) : Bool :=
  l.all (·.isDigit)

/-- Attempt `(\d+)\.\.(\d+)$` at the current position, the prefix `pre`
already consumed. -/
def attemptA (pre rest : List Char) : Option (List Char × List Char × List Char) :=
  let (d, r) := takeDigits rest
  if d.isEmpty then none
  else
    match r with
    | '.' :: '.' :: tail =>
      if !tail.isEmpty && allDigits tail then some (pre, d, tail) else none
    | _ => none

/-- Pattern A after a (possibly empty) consumed prefix: extend the
non-greedy `(.+?)` one character at a time, shortest first. -/
def matchATail (pre : List Char) : List Char → Option (List Char × List Char × List Char)
  | [] => none
  | c :: cs =>
    if c = '\n' then none
    else
      let pre' := pre ++ [c]
      (attemptA pre' cs).orElse fun _ => matchATail pre' cs

/-- Python `re.match(r"^(.+?)(\d+)\.\.(\d+)$", token)`: the captured
groups (prefix, first digit run, second digit run), if any. -/
def matchA (token : List Char) : Option (List Char × List Char × List Char) :=
  matchATail [] token

/-- `(.+?)(\d+)$` on the remainder after `\.\.`: the shortest non-empty
mid such that everything after it is a non-empty digit run to the end. -/
def splitMidNum (acc : List Char) : List Char → Option (List Char × List Char)
  | [] => none
  | c :: cs =>
    if c = '\n' then none
    else
      let acc' := acc ++ [c]
      if !cs.isEmpty && allDigits cs then some (acc', cs)
      else splitMidNum acc' cs

/-- Attempt `(\d+)\.\.(.+?)(\d+)$` at the current position. -/
def attemptB (pre rest : List Char) :
    Option (List Char × List Char × List Char × List Char) :=
  let (d, r) := takeDigits rest
  if d.isEmpty then none
  else
    match r with
    | '.' :: '.' :: tail =>
      (splitMidNum [] tail).map fun p => (pre, d, p.1, p.2)
    | _ => none

/-- Pattern B after a consumed prefix, shortest prefix first. -/
def matchBTail (pre : List Char) :
    List Char → Option (List Char × List Char × List Char × List Char)
  | [] => none
  | c :: cs =>
    if c = '\n' then none
    else
      let pre' := pre ++ [c]
      (attemptB pre' cs).orElse fun _ => matchBTail pre' cs

/-- Python `re.match(r"^(.+?)(\d+)\.\.(.+?)(\d+)$", token)`: the four
captured groups, if any. -/
def matchB (token : List Char) :
    Option (List Char × List Char × List Char × List Char) :=
  matchBTail [] token

/-- The identifiers generated for one matched range: inclusive numeric
range sharing the captured prefix, each number zero-padded to the width
of the first captured digit run (the `for i in range(...): ids.add(...)`
loop of src/main.py lines 156-157 and 166-167). -/
def rangeIds (pre d1 d2 : List Char) : List (List Char) :=
  (rangeNums (charsToNat d1) (charsToNat d2)).map
    fun i => pre ++ zfillChars d1.length (natToChars i)

/-- The identifiers one token contributes to the set: a pattern-A range,
a pattern-B range when the two captured prefixes coincide, or the token
verbatim. -/
def tokenIds (token : List Char) : List (List Char) :=
  match matchA token with
  | some (pre, d1, d2) => rangeIds pre d1 d2
  | none =>
    match matchB token with
    | some (p1, d1, p2, d2) =>
      if p1 = p2 then rangeIds p1 d1 d2 else [token]
    | none => [token]

/-- Insert into a strictly sorted (by `ltCL`) duplicate-free list,
keeping it so: the combined effect of Python's `ids.add(...)` and the
final `sorted(list(ids))`. -/
def insertId (x : List Char) : List (List Char) → List (List Char)
  | [] => [x]
  | y :: ys =>
    if ltCL x y then x :: y :: ys
    else if x = y then y :: ys
    else y :: insertId x ys

/-- `sorted(list(set(l)))`: the strictly ascending enumeration of the
elements of `l`. -/
def sortedDedup (l : List (List Char)) : List (List Char) :=
  l.foldl (fun acc x => insertId x acc) []

/-- The split-strip-filter of src/main.py line 146:
`[t.strip() for t in raw.split(",") if t.strip()]`. -/
def tokensOf (raw : List Char) : List (List Char) :=
  (splitComma raw).filterMap fun t =>
    let s := stripChars t
    if s.isEmpty then none else some s

/-- `parse_id_list` (src/main.py lines 137-171): parse comma-separated
IDs, expanding `start..end` ranges, returning the deduplicated sorted
list. -/
def parse_id_list (raw : String) : List String :=
  if raw = "" then []
  else (sortedDedup ((tokensOf raw.data).flatMap tokenIds)).map String.mk

/-- Python `", ".join(l)` (used by the claims' re-expansion round trip
and by the `missing_dbs` message of src/main.py line 317). -/
def commaJoin : List String → String
  | [] => ""
  | [x] => x
  | x :: xs => x ++ ", " ++ commaJoin xs


/-! ## Notion property extractors (src/main.py lines 67-130)

A per-record property container is a dict with a `type` discriminator
and per-type payload keys; `dict.get` defaults are folded into the
structure's field defaults. `Option PropValue` distinguishes a truthy
container (`some`) from the falsy `None` / `{}` that every extractor
short-circuits on. -/

structure RichTextItem where
  plain_text : String := ""
deriving DecidableEq

structure PropValue where
  type : String := ""
  rich_text : List RichTextItem := []
  title : List RichTextItem := []
  select : Option String := none
  checkbox : Bool := false
  date : Option String := none
  url : Option String := none
deriving DecidableEq

/-- `extract_rich_text` (src/main.py lines 67-84): plain text from a
`rich_text` or `title` array, joined and stripped; empty if absent. -/
def extract_rich_text (prop : Option PropValue) : String :=
  match prop with
  | none => ""
  | some p =>
    let arr :=
      if p.type = "rich_text" then p.rich_text
      else if p.type = "title" then p.title
      else if p.rich_text.isEmpty then p.title else p.rich_text
    if arr.isEmpty then ""
    else pyStrip (String.join (arr.map (·.plain_text)))

/-- `extract_select` (src/main.py lines 87-94): the chosen option's name
(the `select` field holds `select_obj.get("name", "")` when the select
object is truthy), or the empty string. -/
def extract_select (prop : Option PropValue) : String :=
  match prop with
  | none => ""
  | some p =>
    match p.select with
    | some name => name
    | none => ""

/-- `extract_checkbox` (src/main.py lines 97-101): the checkbox boolean,
false if absent. -/
def extract_checkbox (prop : Option PropValue) : Bool :=
  match prop with
  | none => false
  | some p => p.checkbox

/-- `extract_date` (src/main.py lines 104-111): the start date of a
truthy date object (`date_obj.get("start", "") or ""`), else empty. -/
def extract_date (prop : Option PropValue) : String :=
  match prop with
  | none => ""
  | some p =>
    match p.date with
    | some start => start
    | none => ""

/-- `extract_url` (src/main.py lines 114-125): the URL when url-typed
(`prop.get("url", "") or ""`), the rich-text fallback when text-typed,
else empty. -/
def extract_url (prop : Option PropValue) : String :=
  match prop with
  | none => ""
  | some p =>
    if p.type = "url" then
      match p.url with
      | some u => u
      | none => ""
    else if p.type = "rich_text" then extract_rich_text prop
    else ""

/-- A Notion page: its named property containers. -/
structure NotionPage where
  properties : List (String × PropValue) := []
deriving DecidableEq

/-- `get_prop` (src/main.py lines 128-130):
`page.get("properties", {}).get(name, {})`; the falsy `{}` of a missing
property is `none`. -/
def get_prop (page : NotionPage) (name : String) : Option PropValue :=
  List.lookup name page.properties

/-! ## Notion API client (src/main.py lines 178-241)

Each call site's single HTTP exchange is supplied by the `World` oracle
as a raw `HttpResponse`; `query_database` reproduces the status check
and the `HTTPException(502, ...)` detail string. The three query shapes
differ only in the filter the service applies, which the oracle already
accounts for. -/

structure HttpResponse where
  status_code : Nat
  text : String := ""
  results : List NotionPage := []
deriving DecidableEq

structure HttpError where
  status_code : Nat
  detail : String
deriving DecidableEq

/-- `NotionClient.query_database` (src/main.py lines 187-212): a
non-200 response raises `HTTPException(502, "Notion API error: ...")`,
otherwise the parsed `results` list is returned. -/
def query_database (resp : HttpResponse) : Except HttpError (List NotionPage) :=
  if resp.status_code ≠ 200 then
    .error { status_code := 502
             detail := "Notion API error: " ++ toString resp.status_code ++ " - " ++ resp.text }
  else .ok resp.results

/-- `NotionClient.query_by_date` (src/main.py lines 214-220): the
date-equality filter is the service's concern; the oracle hands over the
response to that filtered query. -/
def query_by_date (resp : HttpResponse) : Except HttpError (List NotionPage) :=
  query_database resp

/-- `NotionClient.query_by_text_equals` (src/main.py lines 222-231). -/
def query_by_text_equals (resp : HttpResponse) : Except HttpError (List NotionPage) :=
  query_database resp

/-- `NotionClient.query_unresolved_mistakes` (src/main.py lines
233-241): Resolved = false, sorted newest-first by the service. -/
def query_unresolved_mistakes (resp : HttpResponse) : Except HttpError (List NotionPage) :=
  query_database resp

/-- The oracle for one request: the raw response of each upstream query
the webhook can issue (plan lookup, per-identifier objective and
resource lookups, practice-test lookup, unresolved-mistakes lookup). -/
structure World where
  planResp : HttpResponse
  objectiveResp : String → HttpResponse
  resourceResp : String → HttpResponse
  practiceResp : HttpResponse
  mistakesResp : HttpResponse

/-! ## Pydantic models (src/main.py lines 42-60) -/

structure WebhookRequest where
  run_date : String
  timezone : String := "America/New_York"
deriving DecidableEq

structure DebugInfo where
  date : String
  objectives_count : Nat := 0
  resources_count : Nat := 0
  practice_test_found : Bool := false
  mistakes_found : Nat := 0
deriving DecidableEq

structure WebhookResponse where
  should_send : Bool
  subject : String := ""
  body : String := ""
  reason : String := "ok"
  debug : DebugInfo
deriving DecidableEq

/-- What the endpoint hands back to the caller: either the
`WebhookResponse` envelope (`model_dump`) or a bare
`JSONResponse(status_code, {"error": ...})`. -/
inductive Outcome where
  | envelope (r : WebhookResponse)
  | errorJson (status_code : Nat) (error : String)
deriving DecidableEq

/-- The envelope's reason, when the outcome is an envelope. -/
def Outcome.reasonOf : Outcome → Option String
  | .envelope r => some r.reason
  | .errorJson _ _ => none

/-- The envelope's should_send flag, when the outcome is an envelope. -/
def Outcome.shouldSendOf : Outcome → Option Bool
  | .envelope r => some r.should_send
  | .errorJson _ _ => none

/-- The envelope's subject, when the outcome is an envelope. -/
def Outcome.subjectOf : Outcome → Option String
  | .envelope r => some r.subject
  | .errorJson _ _ => none

/-- The envelope's body, when the outcome is an envelope. -/
def Outcome.bodyOf : Outcome → Option String
  | .envelope r => some r.body
  | .errorJson _ _ => none

/-- The envelope's debug summary, when the outcome is an envelope. -/
def Outcome.debugOf : Outcome → Option DebugInfo
  | .envelope r => some r.debug
  | .errorJson _ _ => none

/-- Whether the outcome has the full response envelope shape. -/
def Outcome.isEnvelope : Outcome → Bool
  | .envelope _ => true
  | .errorJson _ _ => false

/-! ## Digest assembly (src/main.py lines 267-587) -/

/-- Python's `a or b` on strings: `b` when `a` is empty. -/
def strOr (a b : String) : String :=
  if a = "" then b else a

/-- One shaped objective record (the dict built at src/main.py lines
384-391). -/
structure ObjectiveRec where
  id : String
  objective : String
  exam_area : String
  skill_group : String
  priority : String
  primary_resources : String
deriving DecidableEq

/-- One shaped resource record (src/main.py lines 416-422). -/
structure ResourceRec where
  id : String
  name : String
  type : String
  url : String
  why : String
deriving DecidableEq

/-- The shaped practice-test record (src/main.py lines 434-439). -/
structure PracticeRec where
  provider : String
  test : String
  focus : String
  notes : String
deriving DecidableEq

/-- One shaped mistake record (src/main.py lines 456-461). -/
structure MistakeRec where
  objective_id : String
  summary : String
  rule : String
  tip : String
deriving DecidableEq

/-- Step 7 (src/main.py lines 378-394): fetch each objective by exact
ID; a failed query or an empty result is skipped, others append a
shaped record. -/
def fetch_objectives (w : World) (objective_ids : List String) : List ObjectiveRec :=
  match objective_ids with
  | [] => []
  | obj_id :: rest =>
    match query_by_text_equals (w.objectiveResp obj_id) with
    | .error _ => fetch_objectives w rest
    | .ok results =>
      match results with
      | [] => fetch_objectives w rest
      | obj_page :: _ =>
        { id := obj_id
          objective := extract_rich_text (get_prop obj_page "Objective")
          exam_area := strOr (extract_select (get_prop obj_page "Exam Area"))
            (extract_rich_text (get_prop obj_page "Exam Area"))
          skill_group := strOr (extract_select (get_prop obj_page "Skill Group"))
            (extract_rich_text (get_prop obj_page "Skill Group"))
          priority := strOr (extract_select (get_prop obj_page "Priority"))
            (extract_rich_text (get_prop obj_page "Priority"))
          primary_resources :=
            extract_rich_text (get_prop obj_page "Primary Resources (IDs)") } ::
          fetch_objectives w rest

/-- Step 8 (src/main.py lines 399-402): the raw resource reference
string: both session resource strings, then each fetched objective's
non-empty primary-resources string. -/
def build_resource_ids_raw (session1_resources_raw session2_resources_raw : String)
    (objectives : List ObjectiveRec) : String :=
  objectives.foldl
    (fun acc obj =>
      if obj.primary_resources ≠ "" then acc ++ ", " ++ obj.primary_resources else acc)
    (session1_resources_raw ++ ", " ++ session2_resources_raw)

/-- Step 9 (src/main.py lines 410-424): fetch each resource by exact
ID, skip-on-failure. -/
def fetch_resources (w : World) (resource_ids : List String) : List ResourceRec :=
  match resource_ids with
  | [] => []
  | res_id :: rest =>
    match query_by_text_equals (w.resourceResp res_id) with
    | .error _ => fetch_resources w rest
    | .ok results =>
      match results with
      | [] => fetch_resources w rest
      | res_page :: _ =>
        { id := res_id
          name := extract_rich_text (get_prop res_page "Name")
          type := strOr (extract_select (get_prop res_page "Type"))
            (extract_rich_text (get_prop res_page "Type"))
          url := extract_url (get_prop res_page "URL")
          why := extract_rich_text (get_prop res_page "Why it matters") } ::
          fetch_resources w rest

/-- Step 10 (src/main.py lines 429-442): today's practice test, first
match wins, skip-on-failure. -/
def fetch_practice (w : World) : Option PracticeRec :=
  match query_by_date w.practiceResp with
  | .error _ => none
  | .ok practice_results =>
    match practice_results with
    | [] => none
    | pt :: _ =>
      some { provider := strOr (extract_select (get_prop pt "Provider"))
               (extract_rich_text (get_prop pt "Provider"))
             test := extract_rich_text (get_prop pt "Test")
             focus := extract_rich_text (get_prop pt "Primary Focus")
             notes := extract_rich_text (get_prop pt "Notes") }

/-- The record shaped from one mistake page (the dict literal of
src/main.py lines 456-461). -/
def mistakeRecOf (m : NotionPage) : MistakeRec :=
  { objective_id := extract_rich_text (get_prop m "Objective ID")
    summary := extract_rich_text (get_prop m "Mistake Summary")
    rule := extract_rich_text (get_prop m "Correct Rule")
    tip := extract_rich_text (get_prop m "Recognition Tip") }

/-- The filter loop of step 11 (src/main.py lines 452-461): keep the
unresolved mistakes whose `Objective ID` is in today's objective-ID
set, shaped, in query order. -/
def filterMistakes (all_mistakes : List NotionPage) (objective_ids : List String) :
    List MistakeRec :=
  match all_mistakes with
  | [] => []
  | m :: rest =>
    if objective_ids.contains (extract_rich_text (get_prop m "Objective ID")) then
      mistakeRecOf m :: filterMistakes rest objective_ids
    else filterMistakes rest objective_ids

/-- Step 11 (src/main.py lines 447-467): the unresolved mistakes
correlated against today's objective-ID set, truncated to 3; a failed
query leaves the list empty. -/
def fetch_mistakes (w : World) (objective_ids : List String) : List MistakeRec :=
  match query_unresolved_mistakes w.mistakesResp with
  | .error _ => []
  | .ok all_mistakes => (filterMistakes all_mistakes objective_ids).take 3

/-- Step 12 (src/main.py lines 472-571): the fixed-section plain-text
body. -/
def build_body (run_date phase focus_priority session1_text session1_resources_raw
    session2_text session2_resources_raw : String) (objectives : List ObjectiveRec)
    (resources : List ResourceRec) (practice_test : Option PracticeRec)
    (mistakes : List MistakeRec) : String :=
  let body_lines : List String :=
    [ "MD-102 DAILY STUDY BRIEF",
      "Date: " ++ run_date,
      "Phase: " ++ phase,
      "Priority: " ++ focus_priority,
      "",
      "================================",
      "TODAY'S STUDY SESSIONS",
      "================================",
      "SESSION 1 — LEARN (1 hour)",
      strOr session1_text "(No details)",
      "Resources (IDs/URLs):",
      strOr session1_resources_raw "(None)",
      "",
      "SESSION 2 — LAB / PRACTICE (1 hour)",
      strOr session2_text "(No details)",
      "Resources (IDs/URLs):",
      strOr session2_resources_raw "(None)",
      "",
      "================================",
      "TODAY'S OBJECTIVES",
      "================================" ]
  let body_lines := body_lines ++
    (if objectives ≠ [] then
      objectives.foldl
        (fun acc obj =>
          let obj_line := "- " ++ obj.id ++ " — " ++ obj.objective
          let details :=
            (if obj.exam_area ≠ "" then ["Exam Area: " ++ obj.exam_area] else []) ++
            (if obj.skill_group ≠ "" then ["Skill: " ++ obj.skill_group] else []) ++
            (if obj.priority ≠ "" then ["Priority: " ++ obj.priority] else [])
          let obj_line :=
            if details ≠ [] then
              obj_line ++ " (" ++ String.intercalate " | " details ++ ")"
            else obj_line
          acc ++ [obj_line])
        []
    else ["(No objectives found)"])
  let body_lines := body_lines ++
    [ "",
      "================================",
      "KEY RESOURCES",
      "================================" ]
  let body_lines := body_lines ++
    (if resources ≠ [] then
      resources.foldl
        (fun acc res =>
          let acc := acc ++ ["- " ++ res.id ++ " — " ++ res.name ++ " (" ++ res.type ++ ")"]
          let acc := acc ++ (if res.url ≠ "" then ["  URL: " ++ res.url] else [])
          acc ++ (if res.why ≠ "" then ["  Why: " ++ res.why] else []))
        []
    else ["(No resources found)"])
  let body_lines := body_lines ++
    [ "",
      "================================",
      "PRACTICE TEST (IF ANY)",
      "================================" ]
  let body_lines := body_lines ++
    (match practice_test with
     | some pt =>
       [pt.provider ++ " — " ++ pt.test] ++
       (if pt.focus ≠ "" then ["Focus: " ++ pt.focus] else []) ++
       (if pt.notes ≠ "" then ["Notes: " ++ pt.notes] else [])
     | none => ["(No practice test scheduled for today)"])
  let body_lines := body_lines ++
    [ "",
      "================================",
      "OPEN MISTAKES (IF ANY)",
      "================================" ]
  let body_lines := body_lines ++
    (if mistakes ≠ [] then
      mistakes.foldl
        (fun acc m =>
          let acc := acc ++ ["- Mistake: " ++ m.summary]
          let acc := acc ++ (if m.rule ≠ "" then ["  Rule: " ++ m.rule] else [])
          acc ++ (if m.tip ≠ "" then ["  Tip: " ++ m.tip] else []))
        []
    else ["(No open mistakes for today's objectives)"])
  let body_lines := body_lines ++
    [ "",
      "================================",
      "COMPLETION CHECKLIST",
      "================================",
      "[ ] Session 1 Done",
      "[ ] Session 2 Done" ]
  String.intercalate "\n" body_lines

/-- Steps 5-14 on the "ok" path (src/main.py lines 358-587): extract
plan fields, expand objective IDs, fetch objectives, build and expand
the resource-ID set, fetch resources, practice test and mistakes,
render body and subject, and assemble the envelope. -/
def assemble_ok (request : WebhookRequest) (w : World) (plan : NotionPage) :
    WebhookResponse :=
  let phase := extract_rich_text (get_prop plan "Phase")
  let focus_priority := strOr (extract_select (get_prop plan "Focus Priority"))
    (extract_rich_text (get_prop plan "Focus Priority"))
  let session1_text := extract_rich_text (get_prop plan "Session 1 (1 hr) – Learn")
  let session1_resources_raw :=
    extract_rich_text (get_prop plan "Session 1 Resources (IDs/URLs)")
  let session2_text := extract_rich_text (get_prop plan "Session 2 (1 hr) – Lab/Practice")
  let session2_resources_raw :=
    extract_rich_text (get_prop plan "Session 2 Resources (IDs/URLs)")
  let focus_objectives_raw := extract_rich_text (get_prop plan "Focus objectives (IDs)")
  let objective_ids := parse_id_list focus_objectives_raw
  let objectives := fetch_objectives w objective_ids
  let resource_ids_raw :=
    build_resource_ids_raw session1_resources_raw session2_resources_raw objectives
  let resource_ids := parse_id_list resource_ids_raw
  let resources := fetch_resources w resource_ids
  let practice_test := fetch_practice w
  let mistakes := fetch_mistakes w objective_ids
  { should_send := true
    subject :=
      if focus_priority ≠ "" then
        "MD-102 — Daily Study Brief (" ++ focus_priority ++ ")"
      else "MD-102 — Daily Study Brief"
    body := build_body request.run_date phase focus_priority session1_text
      session1_resources_raw session2_text session2_resources_raw objectives
      resources practice_test mistakes
    reason := "ok"
    debug := { date := request.run_date
               objectives_count := objective_ids.length
               resources_count := resource_ids.length
               practice_test_found := practice_test.isSome
               mistakes_found := mistakes.length } }

/-- Steps 3-4 (src/main.py lines 326-353): the mandatory plan lookup
(fatal on upstream error, surfaced as the caught `HTTPException`'s
status and detail), then the no_plan / completed short circuits; the
ok path is `assemble_ok`. -/
def plan_flow (request : WebhookRequest) (w : World) : Outcome :=
  let debug : DebugInfo := { date := request.run_date }
  match query_by_date w.planResp with
  | .error e => .errorJson e.status_code e.detail
  | .ok plan_results =>
    match plan_results with
    | [] => .envelope { should_send := false, reason := "no_plan", debug := debug }
    | plan :: _ =>
      if extract_checkbox (get_prop plan "Session 1 Done") &&
          extract_checkbox (get_prop plan "Session 2 Done") then
        .envelope { should_send := false, reason := "completed", debug := debug }
      else .envelope (assemble_ok request w plan)

/-- The module-level environment configuration (src/main.py lines
24-32). -/
structure Config where
  NOTION_TOKEN : String
  AUTH_TOKEN : String
  PLAN_DB_ID : String
  OBJECTIVES_DB_ID : String
  RESOURCES_DB_ID : String
  PRACTICE_DB_ID : String
  MISTAKES_DB_ID : String
deriving DecidableEq

/-- The `/webhook` endpoint `generate_study_email` (src/main.py lines
267-587): auth check, configuration validation, then the plan flow.
The `X-AUTH-TOKEN` header is `none` when missing; Python's falsiness of
an empty header is checked alongside the comparison. -/
def generate_study_email (cfg : Config) (x_auth_token : Option String)
    (request : WebhookRequest) (w : World) : Outcome :=
  if cfg.AUTH_TOKEN = "" then
    .errorJson 500 "Server misconfigured: AUTH_TOKEN not set"
  else if (x_auth_token = none ∨ x_auth_token = some "") ∨
      x_auth_token ≠ some cfg.AUTH_TOKEN then
    .errorJson 401 "Unauthorized: Invalid or missing X-AUTH-TOKEN"
  else if cfg.NOTION_TOKEN = "" then
    .errorJson 500 "Server misconfigured: NOTION_TOKEN not set"
  else
    let missing_dbs :=
      (if cfg.PLAN_DB_ID = "" then ["PLAN_DB_ID"] else []) ++
      (if cfg.OBJECTIVES_DB_ID = "" then ["OBJECTIVES_DB_ID"] else []) ++
      (if cfg.RESOURCES_DB_ID = "" then ["RESOURCES_DB_ID"] else []) ++
      (if cfg.PRACTICE_DB_ID = "" then ["PRACTICE_DB_ID"] else []) ++
      (if cfg.MISTAKES_DB_ID = "" then ["MISTAKES_DB_ID"] else [])
    if missing_dbs ≠ [] then
      .errorJson 500 ("Missing database IDs: " ++ commaJoin missing_dbs)
    else plan_flow request w

/-- The payload of the global exception handler (src/main.py lines
594-606): the full envelope shape with reason "error" plus the raw
message, under HTTP status 500. -/
structure ErrorEnvelope where
  should_send : Bool
  subject : String
  body : String
  reason : String
  error : String
  debug : DebugInfo
deriving DecidableEq

/-- `global_exception_handler` (src/main.py lines 594-606). -/
def global_exception_handler (exc : String) : Nat × ErrorEnvelope :=
  (500,
   { should_send := false
     subject := ""
     body := ""
     reason := "error"
     error := exc
     debug := { date := "", objectives_count := 0, resources_count := 0,
                practice_test_found := false, mistakes_found := 0 } })

/-! ## Order lemmas for the code-point comparison `ltCL` -/

theorem char_toNat_inj {a b : Char} (h : a.toNat = b.toNat) : a = b := by
  apply Char.eq_of_val_eq
  apply UInt32.eq_of_toBitVec_eq
  exact BitVec.eq_of_toNat_eq h

theorem ltCL_irrefl (l : List Char) : ltCL l l = false := by
  induction l with
  | nil => rfl
  | cons a as ih => simp [ltCL, ih]

theorem ltCL_asymm {a b : List Char} (h : ltCL a b = true) : ltCL b a = false := by
  induction a generalizing b with
  | nil =>
    cases b with
    | nil => simp [ltCL] at h
    | cons c cs => rfl
  | cons x xs ih =>
    cases b with
    | nil => simp [ltCL] at h
    | cons y ys =>
      rcases Nat.lt_trichotomy x.toNat y.toNat with hlt | heq | hgt
      · simp only [ltCL]
        rw [if_neg (Nat.lt_asymm hlt), if_pos hlt]
      · have hxy : x = y := char_toNat_inj heq
        subst hxy
        simp only [ltCL, lt_self_iff_false, if_false] at h ⊢
        exact ih h
      · simp only [ltCL] at h
        rw [if_neg (Nat.lt_asymm hgt), if_pos hgt] at h
        exact absurd h (by simp)

theorem ltCL_trans {a b c : List Char} (h1 : ltCL a b = true) (h2 : ltCL b c = true) :
    ltCL a c = true := by
  induction a generalizing b c with
  | nil =>
    cases b with
    | nil => simp [ltCL] at h1
    | cons y ys =>
      cases c with
      | nil => simp [ltCL] at h2
      | cons z zs => rfl
  | cons x xs ih =>
    cases b with
    | nil => simp [ltCL] at h1
    | cons y ys =>
      cases c with
      | nil => simp [ltCL] at h2
      | cons z zs =>
        rcases Nat.lt_trichotomy x.toNat y.toNat with hxy | hxy | hxy
        · rcases Nat.lt_trichotomy y.toNat z.toNat with hyz | hyz | hyz
          · simp [ltCL, Nat.lt_trans hxy hyz]
          · simp [ltCL, hyz ▸ hxy]
          · simp [ltCL, hyz, Nat.lt_asymm hyz] at h2
        · have : x = y := char_toNat_inj hxy
          subst this
          simp only [ltCL, lt_self_iff_false, if_false] at h1
          rcases Nat.lt_trichotomy x.toNat z.toNat with hyz | hyz | hyz
          · simp [ltCL, hyz]
          · have : x = z := char_toNat_inj hyz
            subst this
            simp only [ltCL, lt_self_iff_false, if_false] at h2 ⊢
            exact ih h1 h2
          · simp [ltCL, hyz, Nat.lt_asymm hyz] at h2
        · simp [ltCL, hxy, Nat.lt_asymm hxy] at h1

theorem ltCL_connex {a b : List Char} (h1 : ltCL a b = false) (h2 : a ≠ b) :
    ltCL b a = true := by
  induction a generalizing b with
  | nil =>
    cases b with
    | nil => exact absurd rfl h2
    | cons c cs => simp [ltCL] at h1
  | cons x xs ih =>
    cases b with
    | nil => rfl
    | cons y ys =>
      rcases Nat.lt_trichotomy x.toNat y.toNat with hxy | hxy | hxy
      · simp [ltCL, hxy] at h1
      · have : x = y := char_toNat_inj hxy
        subst this
        simp only [ltCL, lt_self_iff_false, if_false] at h1 ⊢
        have hne : xs ≠ ys := fun e => h2 (e ▸ rfl)
        exact ih h1 hne
      · simp [ltCL, hxy, Nat.lt_asymm hxy]

/-! ## Lemmas about `insertId` and `sortedDedup` -/

theorem mem_insertId {x a : List Char} {l : List (List Char)} :
    a ∈ insertId x l ↔ a = x ∨ a ∈ l := by
  induction l with
  | nil => simp [insertId]
  | cons y ys ih =>
    by_cases h1 : ltCL x y = true
    · have step : insertId x (y :: ys) = x :: y :: ys := by simp [insertId, h1]
      rw [step]
      simp
    · by_cases h2 : x = y
      · subst h2
        have step : insertId x (x :: ys) = x :: ys := by simp [insertId, h1]
        rw [step]
        simp only [List.mem_cons]
        tauto
      · have step : insertId x (y :: ys) = y :: insertId x ys := by
          simp [insertId, h1, h2]
        rw [step]
        simp only [List.mem_cons, ih]
        tauto

theorem pairwise_insertId {x : List Char} {l : List (List Char)}
    (hp : l.Pairwise (fun a b => ltCL a b = true)) :
    (insertId x l).Pairwise (fun a b => ltCL a b = true) := by
  induction l with
  | nil => simp [insertId]
  | cons y ys ih =>
    rcases List.pairwise_cons.mp hp with ⟨hy, hys⟩
    by_cases h1 : ltCL x y = true
    · have step : insertId x (y :: ys) = x :: y :: ys := by simp [insertId, h1]
      rw [step]
      refine List.pairwise_cons.mpr ⟨?_, hp⟩
      intro b hb
      rcases List.mem_cons.mp hb with hb | hb
      · exact hb ▸ h1
      · exact ltCL_trans h1 (hy b hb)
    · by_cases h2 : x = y
      · subst h2
        have step : insertId x (x :: ys) = x :: ys := by simp [insertId, h1]
        rw [step]
        exact hp
      · have h1f : ltCL x y = false := by
          revert h1
          cases ltCL x y <;> simp
        have hyx : ltCL y x = true := ltCL_connex h1f h2
        have step : insertId x (y :: ys) = y :: insertId x ys := by
          simp [insertId, h1, h2]
        rw [step]
        refine List.pairwise_cons.mpr ⟨?_, ih hys⟩
        intro b hb
        rcases mem_insertId.mp hb with hb | hb
        · exact hb ▸ hyx
        · exact hy b hb

theorem insertId_append {x : List Char} {l : List (List Char)}
    (h : ∀ y ∈ l, ltCL y x = true) : insertId x l = l ++ [x] := by
  induction l with
  | nil => rfl
  | cons y ys ih =>
    have hyx : ltCL y x = true := h y (List.mem_cons_self y ys)
    have h1 : ltCL x y = false := ltCL_asymm hyx
    have h2 : x ≠ y := by
      intro e
      subst e
      rw [ltCL_irrefl] at hyx
      exact Bool.false_ne_true hyx
    simp [insertId, h1, h2, ih fun z hz => h z (List.mem_cons_of_mem _ hz)]

theorem pairwise_foldl_insertId (l : List (List Char)) (acc : List (List Char))
    (h : acc.Pairwise (fun a b => ltCL a b = true)) :
    (l.foldl (fun a x => insertId x a) acc).Pairwise (fun a b => ltCL a b = true) := by
  induction l generalizing acc with
  | nil => exact h
  | cons x xs ih => exact ih _ (pairwise_insertId h)

theorem sortedDedup_pairwise (l : List (List Char)) :
    (sortedDedup l).Pairwise (fun a b => ltCL a b = true) :=
  pairwise_foldl_insertId l [] (List.Pairwise.nil)

theorem foldl_insertId_fixpoint (todo acc : List (List Char))
    (h : (acc ++ todo).Pairwise (fun a b => ltCL a b = true)) :
    todo.foldl (fun a x => insertId x a) acc = acc ++ todo := by
  induction todo generalizing acc with
  | nil => simp
  | cons x xs ih =>
    have hacc : ∀ y ∈ acc, ltCL y x = true := by
      intro y hy
      exact (List.pairwise_append.mp h).2.2 y hy x (List.mem_cons_self x xs)
    have step : insertId x acc = acc ++ [x] := insertId_append hacc
    have h' : ((acc ++ [x]) ++ xs).Pairwise (fun a b => ltCL a b = true) := by
      simpa [List.append_assoc] using h
    calc (x :: xs).foldl (fun a x => insertId x a) acc
        = xs.foldl (fun a x => insertId x a) (acc ++ [x]) := by rw [List.foldl_cons, step]
      _ = (acc ++ [x]) ++ xs := ih _ h'
      _ = acc ++ x :: xs := by simp

theorem sortedDedup_fixpoint {l : List (List Char)}
    (h : l.Pairwise (fun a b => ltCL a b = true)) : sortedDedup l = l := by
  simpa using foldl_insertId_fixpoint l [] (by simpa using h)

/-! ## Sortedness of `parse_id_list` output -/

theorem parse_id_list_pairwise (raw : String) :
    (parse_id_list raw).Pairwise (fun a b : String => ltCL a.data b.data = true) := by
  unfold parse_id_list
  by_cases h : raw = ""
  · simp [h]
  · rw [if_neg h, List.pairwise_map]
    exact sortedDedup_pairwise _

theorem parse_id_list_nodup (raw : String) : (parse_id_list raw).Nodup := by
  refine List.Pairwise.imp ?_ (parse_id_list_pairwise raw)
  intro a b hab e
  subst e
  rw [ltCL_irrefl] at hab
  exact Bool.false_ne_true hab

/-- C2: the identifier range expander maps "P-ENTRA-01..04" to the four
identifiers P-ENTRA-01 .. P-ENTRA-04, "P-ENTRA-01..P-ENTRA-03" to
P-ENTRA-01 .. P-ENTRA-03, "A-1, A-1, B-2" to the deduplicated pair
A-1, B-2, the reversed range "X-9..7" to the empty expansion, and
"SOLO" to itself; every identifier generated from a matched range is
the captured prefix plus the range number zero-padded to the width of
the first captured digit run; and for every input the result is a
strictly sorted (hence deduplicated) sequence. -/
theorem c2_range_expansion :
    (parse_id_list "P-ENTRA-01..04" =
      ["P-ENTRA-01", "P-ENTRA-02", "P-ENTRA-03", "P-ENTRA-04"]) ∧
    (parse_id_list "P-ENTRA-01..P-ENTRA-03" =
      ["P-ENTRA-01", "P-ENTRA-02", "P-ENTRA-03"]) ∧
    (parse_id_list "A-1, A-1, B-2" = ["A-1", "B-2"]) ∧
    (parse_id_list "X-9..7" = []) ∧
    (parse_id_list "SOLO" = ["SOLO"]) ∧
    (∀ pre d1 d2 s, s ∈ rangeIds pre d1 d2 →
      ∃ i, charsToNat d1 ≤ i ∧ i ≤ charsToNat d2 ∧
        s = pre ++ zfillChars d1.length (natToChars i) ∧
        d1.length ≤ (zfillChars d1.length (natToChars i)).length) ∧
    (∀ raw : String,
      (parse_id_list raw).Pairwise (fun a b => ltCL a.data b.data = true) ∧
      (parse_id_list raw).Nodup) := by
  refine ⟨by decide, by decide, by decide, by decide, by decide, ?_, ?_⟩
  · intro pre d1 d2 s hs
    unfold rangeIds at hs
    rcases List.mem_map.mp hs with ⟨i, hi, rfl⟩
    unfold rangeNums at hi
    rcases List.mem_map.mp hi with ⟨j, hj, rfl⟩
    rw [List.mem_range] at hj
    refine ⟨j + charsToNat d1, by omega, by omega, rfl, ?_⟩
    simp only [zfillChars, List.length_append, List.length_replicate]
    omega
  · intro raw
    exact ⟨parse_id_list_pairwise raw, parse_id_list_nodup raw⟩

theorem c2_range_expansion_witness :
    ∃ i, charsToNat ['1'] ≤ i ∧ i ≤ charsToNat ['3'] ∧
      "X-2".data = "X-".data ++ zfillChars (['1'].length) (natToChars i) ∧
      (['1'].length) ≤ (zfillChars (['1'].length) (natToChars i)).length :=
  c2_range_expansion.2.2.2.2.2.1 "X-".data ['1'] ['3'] "X-2".data (by decide)

/-! ## The comma-join / split / strip round trip -/

theorem splitComma_nocomma (a : List Char) (h : ',' ∉ a) : splitComma a = [a] := by
  induction a with
  | nil => rfl
  | cons c cs ih =>
    have hc : ¬(c = ',') := fun e => h (by rw [e]; exact List.mem_cons_self _ _)
    have ih' := ih fun m => h (List.mem_cons_of_mem _ m)
    simp [splitComma, hc, ih']

theorem splitComma_append (a r : List Char) (h : ',' ∉ a) :
    splitComma (a ++ ',' :: r) = a :: splitComma r := by
  induction a with
  | nil => simp [splitComma]
  | cons c cs ih =>
    have hc : ¬(c = ',') := fun e => h (by rw [e]; exact List.mem_cons_self _ _)
    have ih' := ih fun m => h (List.mem_cons_of_mem _ m)
    simp [List.cons_append, splitComma, hc, ih']

theorem dropWhile_of_strip_fix {d : List Char} (h : stripChars d = d) :
    d.dropWhile isPyWs = d := by
  have hsub : (d.dropWhile isPyWs).Sublist d := List.dropWhile_sublist _
  have h1 : (stripChars d).length ≤ (d.dropWhile isPyWs).length := by
    unfold stripChars
    calc (((d.dropWhile isPyWs).reverse.dropWhile isPyWs).reverse).length
        = ((d.dropWhile isPyWs).reverse.dropWhile isPyWs).length :=
          List.length_reverse _
      _ ≤ (d.dropWhile isPyWs).reverse.length :=
          (List.dropWhile_sublist _).length_le
      _ = (d.dropWhile isPyWs).length := List.length_reverse _
  have h2 : (d.dropWhile isPyWs).length ≤ d.length := hsub.length_le
  rw [h] at h1
  exact hsub.eq_of_length (Nat.le_antisymm h2 h1)

theorem stripChars_cons_space {d : List Char} (h : stripChars d = d) :
    stripChars (' ' :: d) = d := by
  have hd : d.dropWhile isPyWs = d := dropWhile_of_strip_fix h
  unfold stripChars at h ⊢
  rw [List.dropWhile_cons, if_pos (by decide : isPyWs ' ' = true), hd]
  rw [hd] at h
  exact h

theorem commaJoin_cons_cons (x y : String) (ys : List String) :
    commaJoin (x :: y :: ys) = x ++ ", " ++ commaJoin (y :: ys) := rfl

theorem splitComma_commaJoin (x : String) (xs : List String)
    (hx : ',' ∉ x.data) (hxs : ∀ y ∈ xs, ',' ∉ y.data) :
    splitComma (commaJoin (x :: xs)).data =
      x.data :: xs.map (fun y => ' ' :: y.data) := by
  induction xs generalizing x with
  | nil =>
    show splitComma x.data = [x.data]
    exact splitComma_nocomma x.data hx
  | cons y ys ih =>
    have hy : ',' ∉ y.data := hxs y (List.mem_cons_self _ _)
    have hys : ∀ z ∈ ys, ',' ∉ z.data := fun z hz => hxs z (List.mem_cons_of_mem _ hz)
    have hdata : (commaJoin (x :: y :: ys)).data =
        x.data ++ ',' :: ' ' :: (commaJoin (y :: ys)).data := by
      rw [commaJoin_cons_cons]
      simp [String.data_append]
    rw [hdata, splitComma_append _ _ hx]
    have hrec := ih y hy hys
    show x.data :: splitComma (' ' :: (commaJoin (y :: ys)).data) =
      x.data :: (' ' :: y.data) :: ys.map (fun z => ' ' :: z.data)
    congr 1
    simp [splitComma, hrec]

theorem strip_filterMap_spaced (xs : List String)
    (h : ∀ e ∈ xs, e ≠ "" ∧ pyStrip e = e) :
    (xs.map (fun y => ' ' :: y.data)).filterMap
      (fun t =>
        let s := stripChars t
        if s.isEmpty then none else some s) =
      xs.map String.data := by
  induction xs with
  | nil => rfl
  | cons y ys ih =>
    have hy := h y (List.mem_cons_self _ _)
    have hstrip : stripChars y.data = y.data := congrArg String.data hy.2
    have hne : y.data ≠ [] := fun e => hy.1 (String.ext (by rw [e]))
    have hie : (y.data).isEmpty = false := List.isEmpty_eq_false.mpr hne
    have htail := ih fun e he => h e (List.mem_cons_of_mem _ he)
    simp only [List.map_cons, List.filterMap_cons, stripChars_cons_space hstrip, hie]
    exact congrArg (y.data :: ·) htail

theorem tokensOf_commaJoin (l : List String)
    (h : ∀ e ∈ l, e ≠ "" ∧ ',' ∉ e.data ∧ pyStrip e = e) :
    tokensOf (commaJoin l).data = l.map String.data := by
  cases l with
  | nil => rfl
  | cons x xs =>
    have hx := h x (List.mem_cons_self _ _)
    have hstrip : stripChars x.data = x.data := congrArg String.data hx.2.2
    have hne : x.data ≠ [] := fun e => hx.1 (String.ext (by rw [e]))
    have hie : (x.data).isEmpty = false := List.isEmpty_eq_false.mpr hne
    unfold tokensOf
    rw [splitComma_commaJoin x xs hx.2.1
      (fun y hy => (h y (List.mem_cons_of_mem _ hy)).2.1)]
    have htail := strip_filterMap_spaced xs
      fun e he => ⟨(h e (List.mem_cons_of_mem _ he)).1, (h e (List.mem_cons_of_mem _ he)).2.2⟩
    simp only [List.filterMap_cons, hstrip, hie]
    exact congrArg (x.data :: ·) htail

theorem flatMap_tokenIds_plain (l : List String)
    (h : ∀ e ∈ l, tokenIds e.data = [e.data]) :
    (l.map String.data).flatMap tokenIds = l.map String.data := by
  induction l with
  | nil => rfl
  | cons x xs ih =>
    rw [List.map_cons, List.flatMap_cons, h x (List.mem_cons_self _ _),
      ih fun e he => h e (List.mem_cons_of_mem _ he)]
    rfl

theorem map_mk_map_data (l : List String) : (l.map String.data).map String.mk = l := by
  induction l with
  | nil => rfl
  | cons x xs ih =>
    show String.mk x.data :: (xs.map String.data).map String.mk = x :: xs
    rw [ih]

/-- C7 counterexample: the expander is not idempotent on its own
output. "A1..A2..4" expands (via pattern A with prefix "A1..A") to the
tokens A1..A2, A1..A3, A1..A4; each of these is itself a pattern-B
range with equal prefixes, so re-expanding the comma-joined output
yields A1, A2, A3, A4 instead of the original set. -/
theorem c7_counterexample :
    parse_id_list "A1..A2..4" = ["A1..A2", "A1..A3", "A1..A4"] ∧
    parse_id_list (commaJoin (parse_id_list "A1..A2..4")) = ["A1", "A2", "A3", "A4"] ∧
    parse_id_list (commaJoin (parse_id_list "A1..A2..4")) ≠ parse_id_list "A1..A2..4" :=
  ⟨by decide, by decide, by decide⟩

/-- C7 (amended): the expander is idempotent on sorted deduplicated
sets of plain identifiers, where plain means the expander treats the
token verbatim (it is non-empty, comma-free, whitespace-trimmed, and
matches neither range pattern): re-expanding the comma-joined set
returns the same set unchanged. An already-expanded result need not
qualify — a generated identifier can itself be a range token, as the
counterexample shows. -/
theorem c7_idempotent_plain (l : List String)
    (hsorted : l.Pairwise (fun a b => ltCL a.data b.data = true))
    (hplain : ∀ e ∈ l, e ≠ "" ∧ ',' ∉ e.data ∧ pyStrip e = e ∧ tokenIds e.data = [e.data]) :
    parse_id_list (commaJoin l) = l := by
  cases l with
  | nil => rfl
  | cons x xs =>
    have hx := hplain x (List.mem_cons_self _ _)
    have hne : commaJoin (x :: xs) ≠ "" := by
      cases xs with
      | nil => exact hx.1
      | cons y ys =>
        intro e
        have hdata := congrArg String.data e
        rw [commaJoin_cons_cons] at hdata
        simp [String.data_append] at hdata
    unfold parse_id_list
    rw [if_neg hne]
    rw [tokensOf_commaJoin _
      (fun e he => ⟨(hplain e he).1, (hplain e he).2.1, (hplain e he).2.2.1⟩)]
    rw [flatMap_tokenIds_plain _ (fun e he => (hplain e he).2.2.2)]
    rw [sortedDedup_fixpoint (List.pairwise_map.mpr hsorted)]
    exact map_mk_map_data _

theorem c7_idempotent_plain_witness :
    parse_id_list (commaJoin ["A-1", "B-2"]) = ["A-1", "B-2"] :=
  c7_idempotent_plain ["A-1", "B-2"] (by decide) (by decide)

/-- C8: every record field extractor is total by construction, and on
the absent or empty property container (the falsy `None` / `{}`, and a
property missing from a page) each returns its documented default:
empty string for the text, single-choice, date and URL extractors,
false for the boolean extractor. -/
theorem c8_extractors_total :
    extract_rich_text none = "" ∧ extract_select none = "" ∧
    extract_checkbox none = false ∧ extract_date none = "" ∧
    extract_url none = "" ∧
    get_prop { properties := [] } "Phase" = none :=
  ⟨rfl, rfl, rfl, rfl, rfl, rfl⟩

/-! ## Reductions of the endpoint's guard and plan stages -/

/-- The request passed the auth check and the configuration
validation: the shared secret is configured and matches the header, and
the Notion credential and all five database IDs are set. -/
@[reducible] def authConfigOk (cfg : Config) (x : Option String) : Prop :=
  cfg.AUTH_TOKEN ≠ "" ∧ x = some cfg.AUTH_TOKEN ∧ cfg.NOTION_TOKEN ≠ "" ∧
  cfg.PLAN_DB_ID ≠ "" ∧ cfg.OBJECTIVES_DB_ID ≠ "" ∧ cfg.RESOURCES_DB_ID ≠ "" ∧
  cfg.PRACTICE_DB_ID ≠ "" ∧ cfg.MISTAKES_DB_ID ≠ ""

theorem generate_eq_plan_flow {cfg : Config} {x : Option String}
    (request : WebhookRequest) (w : World) (h : authConfigOk cfg x) :
    generate_study_email cfg x request w = plan_flow request w := by
  obtain ⟨h1, h2, h3, h4, h5, h6, h7, h8⟩ := h
  subst h2
  simp [generate_study_email, h1, h3, h4, h5, h6, h7, h8]

theorem query_by_date_ok {resp : HttpResponse} (hs : resp.status_code = 200) :
    query_by_date resp = .ok resp.results := by
  simp [query_by_date, query_database, hs]

theorem plan_flow_no_plan {request : WebhookRequest} {w : World}
    (hs : w.planResp.status_code = 200) (hr : w.planResp.results = []) :
    plan_flow request w =
      .envelope { should_send := false, reason := "no_plan",
                  debug := { date := request.run_date } } := by
  unfold plan_flow
  rw [query_by_date_ok hs, hr]

theorem plan_flow_completed {request : WebhookRequest} {w : World} {p : NotionPage}
    {rest : List NotionPage}
    (hs : w.planResp.status_code = 200) (hr : w.planResp.results = p :: rest)
    (h1 : extract_checkbox (get_prop p "Session 1 Done") = true)
    (h2 : extract_checkbox (get_prop p "Session 2 Done") = true) :
    plan_flow request w =
      .envelope { should_send := false, reason := "completed",
                  debug := { date := request.run_date } } := by
  unfold plan_flow
  rw [query_by_date_ok hs, hr]
  simp [h1, h2]

theorem plan_flow_ok_path {request : WebhookRequest} {w : World} {p : NotionPage}
    {rest : List NotionPage}
    (hs : w.planResp.status_code = 200) (hr : w.planResp.results = p :: rest)
    (hflag : ¬(extract_checkbox (get_prop p "Session 1 Done") = true ∧
        extract_checkbox (get_prop p "Session 2 Done") = true)) :
    plan_flow request w = .envelope (assemble_ok request w p) := by
  unfold plan_flow
  rw [query_by_date_ok hs, hr]
  have hb : (extract_checkbox (get_prop p "Session 1 Done") &&
      extract_checkbox (get_prop p "Session 2 Done")) = false := by
    cases h1 : extract_checkbox (get_prop p "Session 1 Done") with
    | false => simp
    | true =>
      cases h2 : extract_checkbox (get_prop p "Session 2 Done") with
      | false => simp
      | true => exact absurd ⟨h1, h2⟩ hflag
  simp [hb]

theorem plan_flow_plan_error {request : WebhookRequest} {w : World}
    (hs : w.planResp.status_code ≠ 200) :
    plan_flow request w =
      .errorJson 502
        ("Notion API error: " ++ toString w.planResp.status_code ++ " - " ++ w.planResp.text) := by
  unfold plan_flow
  simp [query_by_date, query_database, hs]

/-! ## Concrete fixtures for witnesses and counterexamples -/

/-- A fully configured server. -/
def cfgW : Config :=
  { NOTION_TOKEN := "tok", AUTH_TOKEN := "secret", PLAN_DB_ID := "db-plan",
    OBJECTIVES_DB_ID := "db-obj", RESOURCES_DB_ID := "db-res",
    PRACTICE_DB_ID := "db-pt", MISTAKES_DB_ID := "db-mist" }

def reqW : WebhookRequest := { run_date := "2026-01-02" }

/-- A successful query with no matching rows. -/
def okEmpty : HttpResponse := { status_code := 200 }

/-- An upstream failure. -/
def failResp : HttpResponse := { status_code := 500, text := "boom" }

/-- A rich-text property holding one plain-text run. -/
def rtProp (s : String) : PropValue :=
  { type := "rich_text", rich_text := [{ plain_text := s }] }

/-- A plan row with both completion flags set. -/
def planDone : NotionPage :=
  { properties :=
      [ ("Session 1 Done", { type := "checkbox", checkbox := true }),
        ("Session 2 Done", { type := "checkbox", checkbox := true }) ] }

/-- An incomplete plan row referencing one focus objective. -/
def planIncomplete : NotionPage :=
  { properties := [ ("Focus objectives (IDs)", rtProp "OBJ-01") ] }

/-- Plan found and incomplete; every optional per-item lookup fails. -/
def wFetchFail : World :=
  { planResp := { status_code := 200, results := [planIncomplete] }
    objectiveResp := fun _ => failResp
    resourceResp := fun _ => failResp
    practiceResp := failResp
    mistakesResp := failResp }

/-- The mandatory plan lookup itself fails. -/
def wPlanFail : World :=
  { planResp := failResp
    objectiveResp := fun _ => okEmpty
    resourceResp := fun _ => okEmpty
    practiceResp := okEmpty
    mistakesResp := okEmpty }

/-- The plan query succeeds with zero rows. -/
def wNoPlan : World :=
  { planResp := okEmpty
    objectiveResp := fun _ => okEmpty
    resourceResp := fun _ => okEmpty
    practiceResp := okEmpty
    mistakesResp := okEmpty }

/-- The plan query returns a fully completed row. -/
def wDone : World :=
  { planResp := { status_code := 200, results := [planDone] }
    objectiveResp := fun _ => okEmpty
    resourceResp := fun _ => okEmpty
    practiceResp := okEmpty
    mistakesResp := okEmpty }

/-- An unresolved mistake page tied to objective OBJ-01. -/
def mistakePage : NotionPage :=
  { properties :=
      [ ("Objective ID", rtProp "OBJ-01"),
        ("Mistake Summary", rtProp "mixed up scopes") ] }

/-- Every objective fetch fails, yet the mistakes query succeeds with
one matching unresolved mistake. -/
def wMistakeOnly : World :=
  { planResp := okEmpty
    objectiveResp := fun _ => failResp
    resourceResp := fun _ => okEmpty
    practiceResp := okEmpty
    mistakesResp := { status_code := 200, results := [mistakePage] } }

/-! ## Claims about the orchestrator -/

/-- C6: for every authenticated, configured request, a plan lookup that
succeeds with zero rows yields should_send = false with reason
"no_plan", and a found plan row whose two completion flags are both
true yields should_send = false with reason "completed", regardless of
every other field of the row (and of the rest of the world). -/
theorem c6_no_plan_completed (cfg : Config) (x : Option String)
    (request : WebhookRequest) (w : World) (hac : authConfigOk cfg x) :
    (w.planResp.status_code = 200 → w.planResp.results = [] →
      generate_study_email cfg x request w =
        .envelope { should_send := false, subject := "", body := "", reason := "no_plan",
                    debug := { date := request.run_date, objectives_count := 0,
                               resources_count := 0, practice_test_found := false,
                               mistakes_found := 0 } }) ∧
    (∀ p rest, w.planResp.status_code = 200 → w.planResp.results = p :: rest →
      extract_checkbox (get_prop p "Session 1 Done") = true →
      extract_checkbox (get_prop p "Session 2 Done") = true →
      generate_study_email cfg x request w =
        .envelope { should_send := false, subject := "", body := "", reason := "completed",
                    debug := { date := request.run_date, objectives_count := 0,
                               resources_count := 0, practice_test_found := false,
                               mistakes_found := 0 } }) := by
  constructor
  · intro hs hr
    rw [generate_eq_plan_flow request w hac, plan_flow_no_plan hs hr]
  · intro p rest hs hr h1 h2
    rw [generate_eq_plan_flow request w hac, plan_flow_completed hs hr h1 h2]

theorem c6_no_plan_completed_witness :
    generate_study_email cfgW (some "secret") reqW wNoPlan =
      .envelope { should_send := false, subject := "", body := "", reason := "no_plan",
                  debug := { date := "2026-01-02", objectives_count := 0,
                             resources_count := 0, practice_test_found := false,
                             mistakes_found := 0 } } ∧
    generate_study_email cfgW (some "secret") reqW wDone =
      .envelope { should_send := false, subject := "", body := "", reason := "completed",
                  debug := { date := "2026-01-02", objectives_count := 0,
                             resources_count := 0, practice_test_found := false,
                             mistakes_found := 0 } } :=
  ⟨(c6_no_plan_completed cfgW (some "secret") reqW wNoPlan (by decide)).1 rfl rfl,
   (c6_no_plan_completed cfgW (some "secret") reqW wDone (by decide)).2 planDone [] rfl rfl
     (by decide) (by decide)⟩

/-- C10: in the "no_plan" and "completed" terminal states the response
carries the empty subject and body and an all-zero debug summary
(objectives_count = 0, resources_count = 0, practice_test_found =
false, mistakes_found = 0); only the debug date reflects the request. -/
theorem c10_terminal_frame (cfg : Config) (x : Option String)
    (request : WebhookRequest) (w : World) (hac : authConfigOk cfg x)
    (hs : w.planResp.status_code = 200)
    (hterm : w.planResp.results = [] ∨
      ∃ p rest, w.planResp.results = p :: rest ∧
        extract_checkbox (get_prop p "Session 1 Done") = true ∧
        extract_checkbox (get_prop p "Session 2 Done") = true) :
    Outcome.subjectOf (generate_study_email cfg x request w) = some "" ∧
    Outcome.bodyOf (generate_study_email cfg x request w) = some "" ∧
    Outcome.debugOf (generate_study_email cfg x request w) =
      some { date := request.run_date, objectives_count := 0, resources_count := 0,
             practice_test_found := false, mistakes_found := 0 } := by
  rw [generate_eq_plan_flow request w hac]
  rcases hterm with hr | ⟨p, rest, hr, h1, h2⟩
  · rw [plan_flow_no_plan hs hr]
    exact ⟨rfl, rfl, rfl⟩
  · rw [plan_flow_completed hs hr h1 h2]
    exact ⟨rfl, rfl, rfl⟩

theorem c10_terminal_frame_witness :
    Outcome.subjectOf (generate_study_email cfgW (some "secret") reqW wDone) = some "" ∧
    Outcome.bodyOf (generate_study_email cfgW (some "secret") reqW wDone) = some "" ∧
    Outcome.debugOf (generate_study_email cfgW (some "secret") reqW wDone) =
      some { date := "2026-01-02", objectives_count := 0, resources_count := 0,
             practice_test_found := false, mistakes_found := 0 } :=
  c10_terminal_frame cfgW (some "secret") reqW wDone (by decide) rfl
    (Or.inr ⟨planDone, [], rfl, by decide, by decide⟩)

/-- C3 counterexample: when the mandatory plan lookup fails upstream,
the endpoint answers with the bare `{"error": ...}` JSON of the caught
HTTPException (status 502, raw upstream status and body inside the
detail string), not with the full response envelope: the outcome has no
should_send, subject, body, reason or debug field at all, so in
particular its reason is not "error". -/
theorem c3_counterexample :
    generate_study_email cfgW (some "secret") reqW wPlanFail =
      .errorJson 502 "Notion API error: 500 - boom" ∧
    Outcome.isEnvelope (generate_study_email cfgW (some "secret") reqW wPlanFail) = false ∧
    Outcome.reasonOf (generate_study_email cfgW (some "secret") reqW wPlanFail) = none :=
  ⟨by decide, by decide, by decide⟩

/-- C3 (amended): for every authenticated, configured request whose
mandatory plan lookup fails with an upstream service error, the request
aborts with HTTP 502 and a bare JSON object whose single error string
carries the raw upstream status and body; this terminal state does not
return the full response envelope shape (the envelope-shaped reason
"error" payload is produced only by the global exception handler, for
unhandled faults). -/
theorem c3_plan_error_bare_json (cfg : Config) (x : Option String)
    (request : WebhookRequest) (w : World) (hac : authConfigOk cfg x)
    (hs : w.planResp.status_code ≠ 200) :
    generate_study_email cfg x request w =
      .errorJson 502
        ("Notion API error: " ++ toString w.planResp.status_code ++ " - " ++ w.planResp.text) ∧
    Outcome.isEnvelope (generate_study_email cfg x request w) = false ∧
    (global_exception_handler "fault").2.reason = "error" := by
  have h := (generate_eq_plan_flow request w hac).trans (plan_flow_plan_error hs)
  exact ⟨h, by rw [h]; rfl, rfl⟩

theorem c3_plan_error_bare_json_witness :
    generate_study_email cfgW (some "secret") reqW wPlanFail =
      .errorJson 502
        ("Notion API error: " ++ toString wPlanFail.planResp.status_code ++ " - " ++
          wPlanFail.planResp.text) ∧
    Outcome.isEnvelope (generate_study_email cfgW (some "secret") reqW wPlanFail) = false ∧
    (global_exception_handler "fault").2.reason = "error" :=
  c3_plan_error_bare_json cfgW (some "secret") reqW wPlanFail (by decide) (by decide)

/-- C4: once the plan row is found and not fully completed, the
response is the "ok"-path envelope for every world, so failures of
individual objective or resource fetches (which only vary the world's
per-item responses) never change the reason away from "ok" nor
should_send away from true. -/
theorem c4_fetch_failures_keep_ok (cfg : Config) (x : Option String)
    (request : WebhookRequest) (w : World) (p : NotionPage) (rest : List NotionPage)
    (hac : authConfigOk cfg x)
    (hs : w.planResp.status_code = 200) (hr : w.planResp.results = p :: rest)
    (hflag : ¬(extract_checkbox (get_prop p "Session 1 Done") = true ∧
        extract_checkbox (get_prop p "Session 2 Done") = true)) :
    Outcome.reasonOf (generate_study_email cfg x request w) = some "ok" ∧
    Outcome.shouldSendOf (generate_study_email cfg x request w) = some true := by
  rw [generate_eq_plan_flow request w hac, plan_flow_ok_path hs hr hflag]
  exact ⟨rfl, rfl⟩

theorem c4_fetch_failures_keep_ok_witness :
    Outcome.reasonOf (generate_study_email cfgW (some "secret") reqW wFetchFail) = some "ok" ∧
    Outcome.shouldSendOf (generate_study_email cfgW (some "secret") reqW wFetchFail) =
      some true :=
  c4_fetch_failures_keep_ok cfgW (some "secret") reqW wFetchFail planIncomplete []
    (by decide) rfl rfl (by decide)

/-- C1 counterexample: with one parsed focus objective whose fetch
fails, the "ok"-path debug summary still reports objectives_count = 1
(the number of parsed objective identifiers) although zero objective
records were fetched — the count does not equal the number of
successfully resolved objectives. -/
theorem c1_counterexample :
    Outcome.debugOf (generate_study_email cfgW (some "secret") reqW wFetchFail) =
      some { date := "2026-01-02", objectives_count := 1, resources_count := 0,
             practice_test_found := false, mistakes_found := 0 } ∧
    parse_id_list "OBJ-01" = ["OBJ-01"] ∧
    (fetch_objectives wFetchFail (parse_id_list "OBJ-01")).length = 0 :=
  ⟨by decide, by decide, by decide⟩

/-- C1 (amended): on the "ok" path, objectives_count equals the number
of parsed objective identifiers and resources_count the number of
parsed resource identifiers — both independent of per-item fetch
failures — while practice_test_found and mistakes_found reflect only
the successfully resolved practice test and the successfully included
(filtered, capped) mistakes. -/
theorem c1_debug_counts (cfg : Config) (x : Option String)
    (request : WebhookRequest) (w : World) (p : NotionPage) (rest : List NotionPage)
    (hac : authConfigOk cfg x)
    (hs : w.planResp.status_code = 200) (hr : w.planResp.results = p :: rest)
    (hflag : ¬(extract_checkbox (get_prop p "Session 1 Done") = true ∧
        extract_checkbox (get_prop p "Session 2 Done") = true)) :
    Outcome.debugOf (generate_study_email cfg x request w) =
      some { date := request.run_date
             objectives_count :=
               (parse_id_list (extract_rich_text (get_prop p "Focus objectives (IDs)"))).length
             resources_count :=
               (parse_id_list (build_resource_ids_raw
                 (extract_rich_text (get_prop p "Session 1 Resources (IDs/URLs)"))
                 (extract_rich_text (get_prop p "Session 2 Resources (IDs/URLs)"))
                 (fetch_objectives w
                   (parse_id_list
                     (extract_rich_text (get_prop p "Focus objectives (IDs)")))))).length
             practice_test_found := (fetch_practice w).isSome
             mistakes_found :=
               (fetch_mistakes w
                 (parse_id_list
                   (extract_rich_text (get_prop p "Focus objectives (IDs)")))).length } := by
  rw [generate_eq_plan_flow request w hac, plan_flow_ok_path hs hr hflag]
  rfl

theorem c1_debug_counts_witness :
    Outcome.debugOf (generate_study_email cfgW (some "secret") reqW wFetchFail) =
      some { date := reqW.run_date
             objectives_count :=
               (parse_id_list
                 (extract_rich_text (get_prop planIncomplete "Focus objectives (IDs)"))).length
             resources_count :=
               (parse_id_list (build_resource_ids_raw
                 (extract_rich_text (get_prop planIncomplete "Session 1 Resources (IDs/URLs)"))
                 (extract_rich_text (get_prop planIncomplete "Session 2 Resources (IDs/URLs)"))
                 (fetch_objectives wFetchFail
                   (parse_id_list
                     (extract_rich_text
                       (get_prop planIncomplete "Focus objectives (IDs)")))))).length
             practice_test_found := (fetch_practice wFetchFail).isSome
             mistakes_found :=
               (fetch_mistakes wFetchFail
                 (parse_id_list
                   (extract_rich_text
                     (get_prop planIncomplete "Focus objectives (IDs)")))).length } :=
  c1_debug_counts cfgW (some "secret") reqW wFetchFail planIncomplete []
    (by decide) rfl rfl (by decide)

/-! ## Lemmas about the mistake correlation and the fetch loops -/

theorem contains_iff_mem {a : String} {l : List String} :
    l.contains a = true ↔ a ∈ l := by
  simp [List.contains]

theorem filterMistakes_mem_ids (L : List NotionPage) (ids : List String) :
    ∀ m ∈ filterMistakes L ids, m.objective_id ∈ ids := by
  induction L with
  | nil =>
    intro m hm
    simp [filterMistakes] at hm
  | cons p rest ih =>
    intro m hm
    unfold filterMistakes at hm
    by_cases hc : ids.contains (extract_rich_text (get_prop p "Objective ID")) = true
    · rw [if_pos hc] at hm
      rcases List.mem_cons.mp hm with he | he
      · subst he
        exact contains_iff_mem.mp hc
      · exact ih m he
    · rw [if_neg hc] at hm
      exact ih m hm

theorem filterMistakes_length_le (L : List NotionPage) (ids : List String) :
    (filterMistakes L ids).length ≤ L.length := by
  induction L with
  | nil => simp [filterMistakes]
  | cons p rest ih =>
    unfold filterMistakes
    by_cases hc : ids.contains (extract_rich_text (get_prop p "Objective ID")) = true
    · rw [if_pos hc]
      simpa using Nat.succ_le_succ ih
    · rw [if_neg hc]
      exact Nat.le_succ_of_le ih

theorem mistakeRecOf_mem_filterMistakes {mp : NotionPage} {L : List NotionPage}
    (ids : List String) (hm : mp ∈ L)
    (hc : ids.contains (extract_rich_text (get_prop mp "Objective ID")) = true) :
    mistakeRecOf mp ∈ filterMistakes L ids := by
  induction L with
  | nil => cases hm
  | cons p rest ih =>
    unfold filterMistakes
    rcases List.mem_cons.mp hm with he | he
    · subst he
      rw [if_pos hc]
      exact List.mem_cons_self _ _
    · by_cases hc' : ids.contains (extract_rich_text (get_prop p "Objective ID")) = true
      · rw [if_pos hc']
        exact List.mem_cons_of_mem _ (ih he)
      · rw [if_neg hc']
        exact ih he

theorem fetch_objectives_all_fail (w : World) (ids : List String)
    (h : ∀ id, (w.objectiveResp id).status_code ≠ 200) :
    fetch_objectives w ids = [] := by
  induction ids with
  | nil => rfl
  | cons i rest ih =>
    simp [fetch_objectives, query_by_text_equals, query_database, h i, ih]

/-- C5: for every world and raw focus-objective string, the mistakes
list used in full assembly has length at most 3 and every returned
mistake's associated objective identifier is a member of the expanded
objective-identifier set. -/
theorem c5_mistakes_invariant (w : World) (raw : String) :
    (fetch_mistakes w (parse_id_list raw)).length ≤ 3 ∧
    ∀ m ∈ fetch_mistakes w (parse_id_list raw), m.objective_id ∈ parse_id_list raw := by
  constructor
  · unfold fetch_mistakes
    cases hq : query_unresolved_mistakes w.mistakesResp with
    | error e => simp
    | ok L =>
      rw [List.length_take]
      exact min_le_left _ _
  · intro m hm
    unfold fetch_mistakes at hm
    cases hq : query_unresolved_mistakes w.mistakesResp with
    | error e =>
      rw [hq] at hm
      simp at hm
    | ok L =>
      rw [hq] at hm
      exact filterMistakes_mem_ids L _ m (List.mem_of_mem_take hm)

theorem c5_mistakes_invariant_witness :
    (fetch_mistakes wMistakeOnly (parse_id_list "OBJ-01")).length ≤ 3 ∧
    (mistakeRecOf mistakePage).objective_id ∈ parse_id_list "OBJ-01" :=
  ⟨(c5_mistakes_invariant wMistakeOnly "OBJ-01").1,
   (c5_mistakes_invariant wMistakeOnly "OBJ-01").2 (mistakeRecOf mistakePage) (by decide)⟩

/-- C9: mistake correlation uses the parsed objective-identifier set,
not the fetched objective records: when every individual objective
fetch fails (so zero objective records are fetched), an unresolved
mistake whose objective identifier lies in the expanded set is still
included, the 3-item cap permitting (here guaranteed by the query
returning at most 3 rows). -/
theorem c9_correlation_parsed_ids (w : World) (raw : String) (mp : NotionPage)
    (L : List NotionPage)
    (hfail : ∀ id, (w.objectiveResp id).status_code ≠ 200)
    (hq : query_unresolved_mistakes w.mistakesResp = .ok L)
    (hlen : L.length ≤ 3)
    (hm : mp ∈ L)
    (hid : extract_rich_text (get_prop mp "Objective ID") ∈ parse_id_list raw) :
    fetch_objectives w (parse_id_list raw) = [] ∧
    mistakeRecOf mp ∈ fetch_mistakes w (parse_id_list raw) := by
  refine ⟨fetch_objectives_all_fail w _ hfail, ?_⟩
  unfold fetch_mistakes
  rw [hq]
  show mistakeRecOf mp ∈ (filterMistakes L (parse_id_list raw)).take 3
  rw [List.take_of_length_le (le_trans (filterMistakes_length_le L _) hlen)]
  exact mistakeRecOf_mem_filterMistakes _ hm (contains_iff_mem.mpr hid)

theorem c9_correlation_parsed_ids_witness :
    fetch_objectives wMistakeOnly (parse_id_list "OBJ-01") = [] ∧
    mistakeRecOf mistakePage ∈ fetch_mistakes wMistakeOnly (parse_id_list "OBJ-01") :=
  c9_correlation_parsed_ids wMistakeOnly "OBJ-01" mistakePage [mistakePage]
    (fun _ => by show (500 : Nat) ≠ 200; decide) rfl (by decide) (by decide) (by decide)
